import Mathlib

/-!
Verification of the payment-to-token reconciliation engine of the hccc-backend
repository, shallowly embedded in Lean 4.

The embedding follows the JavaScript sources:
  * `src/utils/timeRestrictions.js`   — `checkTimeRestriction`
  * `src/routes/payments.js`          — Stripe router: `mapStripeStatusToDbStatus`,
    `addTokensToBalance`, `POST /confirm-payment`, `POST /check-status`,
    webhook handlers (`handlePaymentSuccess`, `handlePaymentFailure`,
    `handlePaymentProcessing`, `handleChargeFailed`), duplicate-intent suppression
    in `POST /create-payment-intent`
  * `src/models/Payment.js`           — schema and `processScheduledTokens`
  * `src/models/TokenBalance.js`      — the (user, game, location) balance rows
  * `src/services/cronService.js`     — `processScheduledTokensForLocation`
  * `src/scripts/fix-failed-payments.js` — `fixFailedPayments`, `getPreciseDisplayStatus`
  * the PayPal router (`getDisplayStatus`, `POST /create-order`, `POST /capture-order`)

Dates are modelled as Texas-local wall-clock times (day index, hour, minute),
matching how `checkTimeRestriction` converts every timestamp to
`America/Chicago` before inspecting it.  MongoDB collections are modelled as
lists of rows; a Mongoose `save()` on a loaded document is modelled as a
write-back of the in-memory copy.
-/

namespace Hccc

/-! ## Local (Texas) wall-clock times -/

/-- A Texas-local wall-clock instant: calendar day index, hour and minute.
`checkTimeRestriction` in `timeRestrictions.js` first converts the payment
time to `America/Chicago` and then only reads the calendar day, hour and
minute, so this is exactly the data the code consumes. -/
structure LocalTime where
  day : Int
  hour : Nat
  minute : Nat
deriving DecidableEq, Repr

/-- Minutes since the hour-0 of day 0; used to compare instants the way the
JS `Date` comparisons (`<=` on absolute times, all in the same zone) do. -/
def LocalTime.toMin (t : LocalTime) : Int :=
  t.day * 1440 + (t.hour : Int) * 60 + (t.minute : Int)

/-- Boolean `<=` on local times, the embedding of JS `Date` comparison. -/
def LocalTime.leB (a b : LocalTime) : Bool :=
  a.toMin ≤ b.toMin

/-- `currentHour * 60 + currentMinute` from `checkTimeRestriction`. -/
def LocalTime.minutesOfDay (t : LocalTime) : Nat :=
  t.hour * 60 + t.minute

/-! ## Location normalization (`location.toLowerCase().replace(/[-\s]/g, '')`) -/

/-- Does `l` start with the character sequence `sub`? -/
def listStartsWith : List Char → List Char → Bool
  | _, [] => true
  | [], _ :: _ => false
  | a :: as, b :: bs => a = b && listStartsWith as bs

/-- Does `l` contain `sub` as a contiguous subsequence?  This is the embedding
of JavaScript `String.prototype.includes`. -/
def containsSeq : List Char → List Char → Bool
  | [], sub => sub.isEmpty
  | l@(_ :: rest), sub => listStartsWith l sub || containsSeq rest sub

/-- `location.toLowerCase().replace(/[-\s]/g, '')`: lower-case the location
name and drop hyphens and whitespace. -/
def normalizeLocation (location : String) : List Char :=
  (location.data.map Char.toLower).filter (fun c => !(c = '-' || c.isWhitespace))

/-- The category-A match of `checkTimeRestriction`:
`normalizedLocation.includes('cedarpark') || normalizedLocation.includes('cedar')`. -/
def isCedarLocation (location : String) : Bool :=
  containsSeq (normalizeLocation location) "cedarpark".data ||
    containsSeq (normalizeLocation location) "cedar".data

/-- The category-B match of `checkTimeRestriction`:
`normalizedLocation.includes('libertyhill') || normalizedLocation.includes('liberty')`. -/
def isLibertyLocation (location : String) : Bool :=
  containsSeq (normalizeLocation location) "libertyhill".data ||
    containsSeq (normalizeLocation location) "liberty".data

/-! ## `checkTimeRestriction` (src/utils/timeRestrictions.js) -/

/-- The `{ shouldDelay, scheduledTime }` part of the object returned by
`checkTimeRestriction` (the `message` and `currentTexasTime` fields play no
role in any claim and deterministically accompany the two modelled fields). -/
structure TimeRestrictionResult where
  shouldDelay : Bool
  scheduledTime : Option LocalTime
deriving DecidableEq, Repr

/-- Embedding of `checkTimeRestriction(location, paymentTime)` from
`src/utils/timeRestrictions.js`, with `texasTime` the payment time already
converted to Texas local time (the first line of the JS function).

Cedar Park: delay inside `[180, 660)` minutes (3 AM–11 AM), scheduling the
next calendar day at 11:00 (`setDate(+1); setHours(11,0,0,0)`).
Liberty Hill: delay inside `[1380, 1440) ∪ [0, 600)` (11 PM–10 AM crossing
midnight), scheduling 10:00 on the next day if in the evening part
(`currentTime >= 1380`), otherwise the same day.  Locations matching neither
pattern never delay. -/
def checkTimeRestriction (location : String) (texasTime : LocalTime) :
    TimeRestrictionResult :=
  let currentTime := texasTime.minutesOfDay
  if isCedarLocation location then
    if 180 ≤ currentTime ∧ currentTime < 660 then
      { shouldDelay := true, scheduledTime := some ⟨texasTime.day + 1, 11, 0⟩ }
    else
      { shouldDelay := false, scheduledTime := none }
  else if isLibertyLocation location then
    if 1380 ≤ currentTime ∨ currentTime < 600 then
      { shouldDelay := true
        scheduledTime :=
          some ⟨texasTime.day + (if 1380 ≤ currentTime then 1 else 0), 10, 0⟩ }
    else
      { shouldDelay := false, scheduledTime := none }
  else
    { shouldDelay := false, scheduledTime := none }

end Hccc

namespace Hccc

/-! ## Data model: payment records and token balances -/

/-- One `Payment` document (src/models/Payment.js), restricted to the fields
the reconciliation engine reads or writes.  `externalRef` stands for the
provider-issued id (`stripePaymentIntentId` / `paypalOrderId`) and
`clientSecret` for `stripeClientSecret`.  The free-form `metadata` bag is
flattened to the keys the engine itself writes (`failureReason`, `errorCode`,
`timeRestriction`). -/
structure PaymentRec where
  user : Nat
  game : Nat
  location : String
  tokens : Nat
  price : Nat
  externalRef : String
  clientSecret : String
  status : String
  paymentMethod : Option String
  receiptUrl : Option String
  tokensAdded : Bool
  tokensScheduledFor : Option LocalTime
  failureReason : Option String
  errorCode : Option String
  timeRestrictionMeta : Option String
deriving DecidableEq, Repr

/-- One `TokenBalance` document (src/models/TokenBalance.js): the
per-(user, game, location) token counter. -/
structure BalanceRow where
  user : Nat
  game : Nat
  location : String
  tokens : Int
deriving DecidableEq, Repr

/-- The `{user, game, location}` query filter on the balance collection. -/
def keyMatch (r : BalanceRow) (u g : Nat) (l : String) : Bool :=
  r.user = u && r.game = g && r.location = l

/-- `TokenBalance.findOne({user, game, location})`: the first row with the
given key. -/
def findBalance (db : List BalanceRow) (u g : Nat) (l : String) :
    Option BalanceRow :=
  match db with
  | [] => none
  | r :: rest => if keyMatch r u g l then some r else findBalance rest u g l

/-- Write back a loaded balance document: replace the tokens of the first row
with the given key (Mongoose `save()` on a fetched document). -/
def saveBalance (db : List BalanceRow) (u g : Nat) (l : String) (t : Int) :
    List BalanceRow :=
  match db with
  | [] => []
  | r :: rest =>
      if keyMatch r u g l then
        { r with tokens := t } :: rest
      else
        r :: saveBalance rest u g l t

/-- `addTokensToBalance(payment)` (src/routes/payments.js, and the identical
copies in the PayPal router and fix-failed-payments script): look up the
balance row for (payment.user, payment.game, payment.location), creating it
with `tokens: 0` when absent; add `payment.tokenPackage.tokens`; save; then
set `payment.tokensAdded = true` and save the payment.  Nothing else on the
payment is touched — in particular `tokensScheduledFor` is left as it was. -/
def addTokensToBalance (db : List BalanceRow) (p : PaymentRec) :
    List BalanceRow × PaymentRec :=
  let db' :=
    match findBalance db p.user p.game p.location with
    | some row => saveBalance db p.user p.game p.location (row.tokens + p.tokens)
    | none => db ++ [⟨p.user, p.game, p.location, 0 + (p.tokens : Int)⟩]
  (db', { p with tokensAdded := true })

end Hccc

namespace Hccc

/-! ## Stripe provider snapshots and status mapping (src/routes/payments.js) -/

/-- `paymentIntent.last_payment_error` as the engine reads it. -/
structure StripeError where
  code : Option String
  message : Option String
  declineCode : Option String
  errType : Option String
deriving DecidableEq, Repr

/-- The slice of a retrieved Stripe `paymentIntent` the engine consumes:
its `status`, `last_payment_error`, the first `payment_method_types` entry
and the receipt URL of its first charge. -/
structure StripeIntent where
  status : String
  lastPaymentError : Option StripeError
  paymentMethod : String
  receiptUrl : Option String
deriving DecidableEq, Repr

/-- `mapStripeStatusToDbStatus` (src/routes/payments.js lines 332–353):
the Stripe-side status-mapping table, with `default: return 'pending'`. -/
def mapStripeStatusToDbStatus (stripeStatus : String) : String :=
  if stripeStatus = "succeeded" then "succeeded"
  else if stripeStatus = "processing" then "processing"
  else if stripeStatus = "canceled" then "canceled"
  else if stripeStatus = "requires_payment_method" then "failed"
  else if stripeStatus = "requires_action" then "pending"
  else if stripeStatus = "requires_confirmation" then "pending"
  else if stripeStatus = "requires_capture" then "pending"
  else if stripeStatus = "expired" then "expired"
  else "pending"

/-- The Stripe statuses named by a `case` of `mapStripeStatusToDbStatus`. -/
def stripeListedStatuses : List String :=
  ["succeeded", "processing", "canceled", "requires_payment_method",
   "requires_action", "requires_confirmation", "requires_capture", "expired"]

/-- The six values the `Payment` schema admits for `status`
(src/models/Payment.js lines 44–48). -/
def schemaStatuses : List String :=
  ["pending", "processing", "succeeded", "failed", "canceled", "expired"]

/-- The seven normalized statuses named by the specification (§3). -/
def normalizedStatuses : List String :=
  ["created", "processing", "succeeded", "failed", "canceled", "expired", "refunded"]

/-- The terminal internal statuses a status-mapping fallback must never
produce. -/
def terminalStatuses : List String :=
  ["succeeded", "failed", "canceled", "expired", "refunded"]

/-- The persisted status update of `POST /confirm-payment`
(src/routes/payments.js lines 232–276): return the record unchanged when it
is already `succeeded`; otherwise map the Stripe status, and when it
differs from the stored one overwrite status, payment method and receipt
URL.  When the new status is `failed` and Stripe reports a
`last_payment_error`, the handler also spreads
`failureReason`/`errorCode`/`declineCode`/`errorType`/`failedAt` into
`payment.metadata`, but the Stripe `Payment` schema's `metadata` subdocument
(src/models/Payment.js lines 64–70) declares none of those keys, so
Mongoose strict mode silently drops them on save: only the three declared
fields below persist.  (The subsequent token-crediting block is modelled
separately by `processSuccess`.) -/
def confirmPaymentUpdate (p : PaymentRec) (intent : StripeIntent) : PaymentRec :=
  if p.status = "succeeded" then p
  else
    let status := mapStripeStatusToDbStatus intent.status
    if p.status ≠ status then
      { p with
        status := status
        paymentMethod := some intent.paymentMethod
        receiptUrl := intent.receiptUrl }
    else p

/-- The persisted status update of `POST /check-status`
(src/routes/payments.js lines 638–658): identical to the confirm-payment
update except that there is no early return for records already
`succeeded`.  Its failed-branch metadata spread is likewise dropped by
strict mode (the keys are undeclared in the Stripe schema's `metadata`). -/
def checkStatusUpdate (p : PaymentRec) (intent : StripeIntent) : PaymentRec :=
  let status := mapStripeStatusToDbStatus intent.status
  if p.status ≠ status then
    { p with
      status := status
      paymentMethod := some intent.paymentMethod
      receiptUrl := intent.receiptUrl }
  else p

/-- The persisted effect of `handlePaymentFailure(paymentIntent)`
(src/routes/payments.js lines 892–934), after the record has been found.
The handler computes `failureReason = last_payment_error.message ||
'Payment failed'` and `errorCode = last_payment_error.code ||
'unknown_error'` and spreads them into `payment.metadata`, but the Stripe
`Payment` schema's `metadata` subdocument (src/models/Payment.js lines
64–70) declares only `gameName`/`userFirstname`/`userLastname`/
`userEmail`/`timeRestriction`, so Mongoose strict mode silently drops both
keys (and `failedAt`): only the enum-valid `status = 'failed'` write
persists. -/
def handlePaymentFailure (p : PaymentRec) (_intent : StripeIntent) : PaymentRec :=
  { p with status := "failed" }

/-- The `charge.failed` data `handleChargeFailed` reads. -/
structure StripeCharge where
  failureMessage : Option String
  failureCode : Option String
deriving DecidableEq, Repr

/-- The persisted effect of `handleChargeFailed(charge)`
(src/routes/payments.js lines 1004–1029), after the record has been found.
The handler spreads `failureReason = charge.failure_message || 'Charge
failed'`, `errorCode = charge.failure_code || 'charge_failed'`, `failedAt`
and `chargeId` into `payment.metadata`; all four keys are undeclared under
the Stripe schema's `metadata` and are silently dropped by strict mode, so
only `status = 'failed'` persists. -/
def handleChargeFailed (p : PaymentRec) (_charge : StripeCharge) : PaymentRec :=
  { p with status := "failed" }

/-- `handlePaymentProcessing(paymentIntent)` (src/routes/payments.js lines
961–977), after the record has been found: it sets `payment.status =
'processing'` and saves, with no check of the record's current status. -/
def handlePaymentProcessing (p : PaymentRec) : PaymentRec :=
  { p with status := "processing" }

/-- The status update of `handlePaymentSuccess(paymentIntent)`
(src/routes/payments.js lines 843–866): return unchanged when the record is
already `succeeded`, otherwise mark it `succeeded` and record the payment
method and receipt URL.  (Token crediting is modelled by `processSuccess`.) -/
def handlePaymentSuccessStatus (p : PaymentRec) (intent : StripeIntent) : PaymentRec :=
  if p.status = "succeeded" then p
  else { p with
    status := "succeeded"
    paymentMethod := some intent.paymentMethod
    receiptUrl := intent.receiptUrl }

end Hccc

namespace Hccc

/-! ## The crediting decision shared by the three triggers -/

/-- The mutable shared state a trigger touches: the `TokenBalance`
collection and the one `Payment` record under reconciliation. -/
structure Store where
  balances : List BalanceRow
  payment : PaymentRec
deriving DecidableEq, Repr

/-- The token-crediting block executed by `POST /confirm-payment` (lines
279–299), `POST /check-status` (lines 661–675) and `handlePaymentSuccess`
(lines 868–888) once a trigger observes mapped status `succeeded`:

`if (status === 'succeeded' && !payment.tokensAdded) { ... }` — when the
time restriction delays (`shouldDelay && scheduledTime`), write
`tokensScheduledFor` and keep `tokensAdded = false`; otherwise call
`addTokensToBalance`.

`p` is the trigger's in-memory copy of the record (loaded earlier in the
handler); the guard reads `p.tokensAdded` from that copy, and the writes
save that copy back over the stored record. -/
def processSuccess (st : Store) (status : String) (p : PaymentRec)
    (tr : TimeRestrictionResult) : Store :=
  if status = "succeeded" && !p.tokensAdded then
    if tr.shouldDelay && tr.scheduledTime.isSome then
      { st with payment :=
          { p with tokensScheduledFor := tr.scheduledTime, tokensAdded := false } }
    else
      let r := addTokensToBalance st.balances p
      { balances := r.1, payment := r.2 }
  else st

/-- One sequential delivery of a `succeeded`-triggering event: the trigger
loads the currently stored record and runs the crediting block on it. -/
def deliverSucceeded (tr : TimeRestrictionResult) (st : Store) : Store :=
  processSuccess st "succeeded" st.payment tr

/-- `n` sequential deliveries (each trigger finishes before the next loads). -/
def deliverSucceededN (tr : TimeRestrictionResult) (n : Nat) (st : Store) : Store :=
  match n with
  | 0 => st
  | n + 1 => deliverSucceededN tr n (deliverSucceeded tr st)

/-! ## The two scheduled sweeps -/

/-- The query filter of `Payment.processScheduledTokens`
(src/models/Payment.js lines 106–115):
`{ status: 'succeeded', tokensScheduledFor: { $lte: now }, tokensAdded: false }`.
A `null` schedule is not matched by the `$lte` date comparison. -/
def scheduledSweepFilter (now : LocalTime) (p : PaymentRec) : Bool :=
  p.status = "succeeded" &&
    (match p.tokensScheduledFor with
     | some t => t.leB now
     | none => false) &&
    !p.tokensAdded

/-- The per-record body of `Payment.processScheduledTokens` (lines
119–145): the same find-or-create/increment/save sequence as
`addTokensToBalance`, then `payment.tokensAdded = true; payment.save()` —
`tokensScheduledFor` is not cleared. -/
def creditScheduledPayment (db : List BalanceRow) (p : PaymentRec) :
    List BalanceRow × PaymentRec :=
  addTokensToBalance db p

/-- `Payment.processScheduledTokens()` (src/models/Payment.js lines
106–181): credit every record matching `scheduledSweepFilter`, leaving the
others untouched. -/
def processScheduledTokens (now : LocalTime) (db : List BalanceRow)
    (ps : List PaymentRec) : List BalanceRow × List PaymentRec :=
  match ps with
  | [] => (db, [])
  | p :: rest =>
      if scheduledSweepFilter now p then
        let r := creditScheduledPayment db p
        let rec' := processScheduledTokens now r.1 rest
        (rec'.1, r.2 :: rec'.2)
      else
        let rec' := processScheduledTokens now db rest
        (rec'.1, p :: rec'.2)

/-- The query filter of `cronService.processScheduledTokensForLocation`
(src/services/cronService.js lines 60–64):
`{ status: 'succeeded', location, tokensAdded: false }` — no condition on
`tokensScheduledFor` at all. -/
def cronSweepFilter (location : String) (p : PaymentRec) : Bool :=
  p.status = "succeeded" && p.location = location && !p.tokensAdded

/-- The per-record body of `processScheduledTokensForLocation` (lines
69–94): increment the balance, then `tokensAdded = true;
tokensScheduledFor = null; metadata.timeRestriction = null; save()`. -/
def cronCreditPayment (db : List BalanceRow) (p : PaymentRec) :
    List BalanceRow × PaymentRec :=
  let db' :=
    match findBalance db p.user p.game p.location with
    | some row => saveBalance db p.user p.game p.location (row.tokens + p.tokens)
    | none => db ++ [⟨p.user, p.game, p.location, 0 + (p.tokens : Int)⟩]
  (db', { p with
    tokensAdded := true
    tokensScheduledFor := none
    timeRestrictionMeta := none })

/-- `cronService.processScheduledTokensForLocation(location)`
(src/services/cronService.js lines 52–114): credit every record matching
`cronSweepFilter`, leaving the others untouched. -/
def processScheduledTokensForLocation (location : String)
    (db : List BalanceRow) (ps : List PaymentRec) :
    List BalanceRow × List PaymentRec :=
  match ps with
  | [] => (db, [])
  | p :: rest =>
      if cronSweepFilter location p then
        let r := cronCreditPayment db p
        let rec' := processScheduledTokensForLocation location r.1 rest
        (rec'.1, r.2 :: rec'.2)
      else
        let rec' := processScheduledTokensForLocation location db rest
        (rec'.1, p :: rec'.2)

end Hccc

namespace Hccc

/-! ## Duplicate-intent suppression (Stripe and PayPal creation routes) -/

/-- Result of `stripe.paymentIntents.retrieve` on the existing intent:
either its current status, or a retrieval error (the `catch` branch). -/
inductive GatewayLookup where
  | ok (status : String)
  | err
deriving DecidableEq, Repr

/-- What a purchase-initiation call does about duplicates: which reference
it answers with, whether it marked the stale record `expired`, and whether
it created a new record. -/
structure DedupOutcome where
  returnedRef : String
  markedExpired : Bool
  createdNew : Bool
deriving DecidableEq, Repr

/-- The duplicate-intent logic of `POST /create-payment-intent`
(src/routes/payments.js lines 77–112): given the recent non-terminal record
for the same (user, game, package, location) — if any — retrieve its intent
from Stripe; when the intent still has status `requires_payment_method`,
answer with the existing record's stored client secret; otherwise (any
other status, or a retrieval error) mark the record `expired` and fall
through to creating a fresh intent and record with `freshRef`. -/
def stripeCreateIntentDedup (existing : Option PaymentRec)
    (lookup : GatewayLookup) (freshRef : String) : DedupOutcome :=
  match existing with
  | none => { returnedRef := freshRef, markedExpired := false, createdNew := true }
  | some ep =>
      match lookup with
      | .ok s =>
          if s = "requires_payment_method" then
            { returnedRef := ep.clientSecret, markedExpired := false, createdNew := false }
          else
            { returnedRef := freshRef, markedExpired := true, createdNew := true }
      | .err =>
          { returnedRef := freshRef, markedExpired := true, createdNew := true }

/-- The duplicate-order logic of the PayPal `POST /create-order` route
(lines 88–108 of the PayPal router): when a recent record with status in
`['CREATED', 'SAVED', 'APPROVED', 'PAYER_ACTION_REQUIRED']` exists, its
`paypalOrderId` is returned immediately — the PayPal Gateway is never
consulted about its validity and nothing is marked `expired`. -/
def paypalCreateOrderDedup (existing : Option PaymentRec) (freshRef : String) :
    DedupOutcome :=
  match existing with
  | none => { returnedRef := freshRef, markedExpired := false, createdNew := true }
  | some ep =>
      { returnedRef := ep.externalRef, markedExpired := false, createdNew := false }

end Hccc

namespace Hccc

/-! ## fix-failed-payments script and PayPal status handling -/

/-- The persisted status update of `fixFailedPayments`
(src/scripts/fix-failed-payments.js lines 63–100): when the Stripe status
differs from the stored one it assigns `payment.status =
paymentIntent.status` — the raw provider status, with no mapping — and
calls `save()`.  The Stripe `Payment` schema (src/models/Payment.js lines
44–48) declares `status` with an enum, so `save()` validates: a raw status
outside the enum makes `save()` reject with a ValidationError, which the
per-record `catch` (lines 116–119) swallows, and the stored record remains
unchanged; a raw status that coincides with an enum value persists.  (The
accompanying metadata spread is dropped by strict mode in either case, the
keys being undeclared.) -/
def fixFailedPaymentsUpdate (p : PaymentRec) (intent : StripeIntent) : PaymentRec :=
  if p.status ≠ intent.status then
    if intent.status ∈ schemaStatuses then { p with status := intent.status }
    else p
  else p

/-- `getDisplayStatus(paypalStatus)` from the PayPal router (lines 14–31):
the PayPal-side status table with `default: return 'pending'`. -/
def getDisplayStatusPaypal (paypalStatus : String) : String :=
  if paypalStatus = "CREATED" then "pending"
  else if paypalStatus = "SAVED" then "pending"
  else if paypalStatus = "APPROVED" then "processing"
  else if paypalStatus = "VOIDED" then "canceled"
  else if paypalStatus = "COMPLETED" then "succeeded"
  else if paypalStatus = "PAYER_ACTION_REQUIRED" then "pending"
  else "pending"

/-- The PayPal statuses named by a `case` of `getDisplayStatus`. -/
def paypalListedStatuses : List String :=
  ["CREATED", "SAVED", "APPROVED", "VOIDED", "COMPLETED", "PAYER_ACTION_REQUIRED"]

/-- `stripeStatus.startsWith('requires_')`. -/
def startsWithRequires (s : String) : Bool :=
  listStartsWith s.data "requires_".data

/-- `getPreciseDisplayStatus(stripeStatus, lastPaymentError)`
(src/scripts/fix-failed-payments.js lines 211–248): `incomplete` and
`requires_*` statuses are refined through the error code, a handful of
terminal statuses map to themselves, and everything else falls back to
`'incomplete'`. -/
def getPreciseDisplayStatus (stripeStatus : String)
    (lastPaymentError : Option StripeError) : String :=
  if stripeStatus = "incomplete" || startsWithRequires stripeStatus then
    match lastPaymentError with
    | some e =>
        if e.code = some "card_declined" &&
            (e.declineCode = some "fraudulent" || e.declineCode = some "blocked" ||
             e.declineCode = some "lost_card" || e.declineCode = some "stolen_card") then
          "blocked"
        else if e.code = some "card_declined" || e.code = some "insufficient_funds" ||
            e.code = some "expired_card" || e.code = some "incorrect_cvc" then
          "failed"
        else if e.code = some "authentication_required" then
          "incomplete"
        else
          "incomplete"
    | none => "incomplete"
  else if stripeStatus = "processing" then "processing"
  else if stripeStatus = "succeeded" then "succeeded"
  else if stripeStatus = "failed" || stripeStatus = "canceled" ||
      stripeStatus = "blocked" || stripeStatus = "expired" then
    stripeStatus
  else "incomplete"

/-- The plain statuses named by `getPreciseDisplayStatus` outside its
`requires_*` pattern. -/
def preciseListedStatuses : List String :=
  ["incomplete", "processing", "succeeded", "failed", "canceled", "blocked", "expired"]

/-- The status update of the PayPal `POST /capture-order` route (lines
225–242): `payment.status = capture.result.status` — the raw PayPal status
of the capture response is stored unconditionally.  The PayPal `Payment`
schema declares `status` with no enum (only a comment listing the PayPal
vocabulary), so the raw string persists on `save()`. -/
def captureOrderUpdate (p : PaymentRec) (captureStatus : String) : PaymentRec :=
  { p with status := captureStatus }

/-- The persisted effect of the PayPal webhook's `handlePaymentDenied`
(the PayPal router's `PAYMENT.CAPTURE.DENIED` handler), after the record
has been found: status `'VOIDED'` with `metadata.failureReason = 'Payment
was denied by PayPal'`, `metadata.errorCode = 'PAYMENT_DENIED'` and a
`failedAt` timestamp.  The PayPal `Payment` schema's `metadata` explicitly
declares the error-tracking fields `failureReason`/`errorCode`/
`errorType`/`failedAt`, so these writes really persist. -/
def handlePaymentDenied (p : PaymentRec) : PaymentRec :=
  { p with
    status := "VOIDED"
    failureReason := some "Payment was denied by PayPal"
    errorCode := some "PAYMENT_DENIED" }

end Hccc

namespace Hccc

/-! ## Lemmas about the balance collection -/

theorem keyMatch_iff {r : BalanceRow} {u g : Nat} {l : String} :
    keyMatch r u g l = true ↔ r.user = u ∧ r.game = g ∧ r.location = l := by
  simp [keyMatch, and_assoc]

theorem findBalance_some_key {db : List BalanceRow} {u g : Nat} {l : String}
    {row : BalanceRow} (h : findBalance db u g l = some row) :
    row.user = u ∧ row.game = g ∧ row.location = l := by
  induction db with
  | nil => simp [findBalance] at h
  | cons r rest ih =>
      rw [findBalance] at h
      by_cases hk : keyMatch r u g l = true
      · rw [if_pos hk] at h
        cases h
        exact keyMatch_iff.mp hk
      · rw [if_neg hk] at h
        exact ih h

theorem findBalance_append_none {db : List BalanceRow} {u₀ g₀ : Nat}
    {l₀ : String} {t : Int} (u g : Nat) (l : String)
    (h : findBalance db u₀ g₀ l₀ = none) :
    findBalance (db ++ [⟨u₀, g₀, l₀, t⟩]) u g l =
      if u₀ = u ∧ g₀ = g ∧ l₀ = l then some ⟨u₀, g₀, l₀, t⟩
      else findBalance db u g l := by
  induction db with
  | nil =>
      by_cases hp : u₀ = u ∧ g₀ = g ∧ l₀ = l
      · obtain ⟨h1, h2, h3⟩ := hp
        simp [findBalance, keyMatch, h1, h2, h3]
      · rw [if_neg hp]
        have hk : ¬ keyMatch (⟨u₀, g₀, l₀, t⟩ : BalanceRow) u g l = true := by
          intro hc
          exact hp (keyMatch_iff.mp hc)
        rw [List.nil_append]
        simp only [findBalance]
        rw [if_neg hk]
  | cons r rest ih =>
      rw [findBalance] at h
      by_cases hk0 : keyMatch r u₀ g₀ l₀ = true
      · rw [if_pos hk0] at h; cases h
      · rw [if_neg hk0] at h
        rw [List.cons_append, findBalance]
        by_cases hk : keyMatch r u g l = true
        · have hp : ¬(u₀ = u ∧ g₀ = g ∧ l₀ = l) := by
            rintro ⟨rfl, rfl, rfl⟩
            exact hk0 hk
          rw [if_pos hk, if_neg hp, findBalance, if_pos hk]
        · rw [if_neg hk, ih h]
          conv_rhs => rw [findBalance, if_neg hk]

theorem findBalance_save_found {db : List BalanceRow} {u₀ g₀ : Nat}
    {l₀ : String} {row : BalanceRow} {t : Int} (u g : Nat) (l : String)
    (h : findBalance db u₀ g₀ l₀ = some row) :
    findBalance (saveBalance db u₀ g₀ l₀ t) u g l =
      if u₀ = u ∧ g₀ = g ∧ l₀ = l then some { row with tokens := t }
      else findBalance db u g l := by
  induction db with
  | nil => simp [findBalance] at h
  | cons r rest ih =>
      rw [findBalance] at h
      by_cases hk0 : keyMatch r u₀ g₀ l₀ = true
      · rw [if_pos hk0] at h
        cases h
        obtain ⟨he1, he2, he3⟩ := keyMatch_iff.mp hk0
        rw [saveBalance, if_pos hk0]
        by_cases hp : u₀ = u ∧ g₀ = g ∧ l₀ = l
        · obtain ⟨hq1, hq2, hq3⟩ := hp
          have hk : keyMatch ({ row with tokens := t }) u g l = true :=
            keyMatch_iff.mpr ⟨hq1 ▸ he1, hq2 ▸ he2, hq3 ▸ he3⟩
          rw [if_pos ⟨hq1, hq2, hq3⟩, findBalance, if_pos hk]
        · have hk : ¬ keyMatch ({ row with tokens := t }) u g l = true := by
            intro hc
            obtain ⟨hc1, hc2, hc3⟩ := keyMatch_iff.mp hc
            exact hp ⟨he1 ▸ hc1, he2 ▸ hc2, he3 ▸ hc3⟩
          have hk' : ¬ keyMatch row u g l = true := by
            intro hc
            obtain ⟨hc1, hc2, hc3⟩ := keyMatch_iff.mp hc
            exact hp ⟨he1 ▸ hc1, he2 ▸ hc2, he3 ▸ hc3⟩
          rw [if_neg hp, findBalance, if_neg hk, findBalance, if_neg hk']
      · rw [if_neg hk0] at h
        rw [saveBalance, if_neg hk0]
        rw [findBalance]
        by_cases hk : keyMatch r u g l = true
        · have hp : ¬(u₀ = u ∧ g₀ = g ∧ l₀ = l) := by
            rintro ⟨rfl, rfl, rfl⟩
            exact hk0 hk
          rw [if_pos hk, if_neg hp, findBalance, if_pos hk]
        · rw [if_neg hk, ih h]
          conv_rhs => rw [findBalance, if_neg hk]

/-- The full effect of `addTokensToBalance` on the balance collection: the
row keyed by the payment gets `old + tokenPackage.tokens` (old defaulting to
`0` for a freshly created row), every other key reads unchanged. -/
theorem addTokens_findBalance (db : List BalanceRow) (p : PaymentRec)
    (u g : Nat) (l : String) :
    findBalance (addTokensToBalance db p).1 u g l =
      if p.user = u ∧ p.game = g ∧ p.location = l then
        some ⟨p.user, p.game, p.location,
          ((findBalance db p.user p.game p.location).map BalanceRow.tokens).getD 0
            + (p.tokens : Int)⟩
      else findBalance db u g l := by
  unfold addTokensToBalance
  cases hf : findBalance db p.user p.game p.location with
  | none =>
      simp only [hf, Option.map_none', Option.getD_none]
      rw [findBalance_append_none u g l hf]
  | some row =>
      obtain ⟨h1, h2, h3⟩ := findBalance_some_key hf
      simp only [hf, Option.map_some', Option.getD_some]
      rw [findBalance_save_found u g l hf]
      by_cases hp : p.user = u ∧ p.game = g ∧ p.location = l
      · rw [if_pos hp, if_pos hp]
        cases row
        simp_all
      · rw [if_neg hp, if_neg hp]

/-- `addTokensToBalance` rewrites the payment to exactly
`{ p with tokensAdded := true }`. -/
theorem addTokens_payment (db : List BalanceRow) (p : PaymentRec) :
    (addTokensToBalance db p).2 = { p with tokensAdded := true } := rfl

end Hccc

namespace Hccc

/-! ## Claim theorems -/

/-- C3: for every Texas-local timestamp, `checkTimeRestriction` on a
Cedar-Park (category A) location delays exactly inside [03:00, 11:00) local
time, scheduling the next calendar day at 11:00; on a Liberty-Hill
(category B, non-Cedar) location it delays in [23:00, 24:00) with next-day
10:00 and in [00:00, 10:00) with same-day 10:00; on every unrecognized
location it returns `shouldDelay = false` and `scheduledTime = null`. -/
theorem claim_C3_time_restriction (loc : String) (t : LocalTime) :
    (isCedarLocation loc = true →
      checkTimeRestriction loc t =
        if 3 * 60 ≤ t.minutesOfDay ∧ t.minutesOfDay < 11 * 60 then
          ⟨true, some ⟨t.day + 1, 11, 0⟩⟩
        else ⟨false, none⟩)
  ∧ (isCedarLocation loc = false → isLibertyLocation loc = true →
      checkTimeRestriction loc t =
        if 23 * 60 ≤ t.minutesOfDay then ⟨true, some ⟨t.day + 1, 10, 0⟩⟩
        else if t.minutesOfDay < 10 * 60 then ⟨true, some ⟨t.day, 10, 0⟩⟩
        else ⟨false, none⟩)
  ∧ (isCedarLocation loc = false → isLibertyLocation loc = false →
      checkTimeRestriction loc t = ⟨false, none⟩) := by
  refine ⟨fun hc => ?_, fun hc hl => ?_, fun hc hl => ?_⟩
  · rw [checkTimeRestriction]
    rw [if_pos hc]
  · rw [checkTimeRestriction]
    rw [if_neg (by simp [hc]), if_pos hl]
    by_cases h1 : 1380 ≤ t.minutesOfDay
    · have h1' : 23 * 60 ≤ t.minutesOfDay := by omega
      rw [if_pos (Or.inl h1), if_pos h1, if_pos h1']
    · by_cases h2 : t.minutesOfDay < 600
      · have h1' : ¬ 23 * 60 ≤ t.minutesOfDay := by omega
        have h2' : t.minutesOfDay < 10 * 60 := by omega
        rw [if_pos (Or.inr h2), if_neg h1, if_neg h1', if_pos h2']
        norm_num
      · have h1' : ¬ 23 * 60 ≤ t.minutesOfDay := by omega
        have h2' : ¬ t.minutesOfDay < 10 * 60 := by omega
        rw [if_neg (by tauto), if_neg h1', if_neg h2']
  · rw [checkTimeRestriction]
    rw [if_neg (by simp [hc]), if_neg (by simp [hl])]

/-- Witness for C3: every boundary instant the claim names — 02:59, 03:00,
10:59 and 11:00 at Cedar Park, 23:30 and 05:00 at Liberty Hill — plus an
unrecognized location. -/
theorem claim_C3_witness :
    checkTimeRestriction "Cedar Park" ⟨0, 2, 59⟩ = ⟨false, none⟩ ∧
    checkTimeRestriction "Cedar Park" ⟨0, 3, 0⟩ = ⟨true, some ⟨1, 11, 0⟩⟩ ∧
    checkTimeRestriction "Cedar Park" ⟨0, 10, 59⟩ = ⟨true, some ⟨1, 11, 0⟩⟩ ∧
    checkTimeRestriction "Cedar Park" ⟨0, 11, 0⟩ = ⟨false, none⟩ ∧
    checkTimeRestriction "Liberty Hill" ⟨0, 23, 30⟩ = ⟨true, some ⟨1, 10, 0⟩⟩ ∧
    checkTimeRestriction "Liberty Hill" ⟨0, 5, 0⟩ = ⟨true, some ⟨0, 10, 0⟩⟩ ∧
    checkTimeRestriction "Downtown" ⟨0, 5, 0⟩ = ⟨false, none⟩ := by
  refine ⟨?_, ?_, ?_, ?_, ?_, ?_, ?_⟩
  · exact ((claim_C3_time_restriction "Cedar Park" ⟨0, 2, 59⟩).1
      (by decide)).trans (by decide)
  · exact ((claim_C3_time_restriction "Cedar Park" ⟨0, 3, 0⟩).1
      (by decide)).trans (by decide)
  · exact ((claim_C3_time_restriction "Cedar Park" ⟨0, 10, 59⟩).1
      (by decide)).trans (by decide)
  · exact ((claim_C3_time_restriction "Cedar Park" ⟨0, 11, 0⟩).1
      (by decide)).trans (by decide)
  · exact ((claim_C3_time_restriction "Liberty Hill" ⟨0, 23, 30⟩).2.1
      (by decide) (by decide)).trans (by decide)
  · exact ((claim_C3_time_restriction "Liberty Hill" ⟨0, 5, 0⟩).2.1
      (by decide) (by decide)).trans (by decide)
  · exact (claim_C3_time_restriction "Downtown" ⟨0, 5, 0⟩).2.2
      (by decide) (by decide)

/-- C10: `addTokensToBalance` increments exactly the balance row keyed by
(payment.user, payment.game, payment.location) by exactly
`payment.tokenPackage.tokens` (the row starting at 0 when absent), reads at
every other key are unchanged, and the payment is rewritten to exactly
`{ p with tokensAdded := true }` — all other payment fields untouched. -/
theorem claim_C10_frame (db : List BalanceRow) (p : PaymentRec)
    (u g : Nat) (l : String) :
    (findBalance (addTokensToBalance db p).1 u g l =
      if p.user = u ∧ p.game = g ∧ p.location = l then
        some ⟨p.user, p.game, p.location,
          ((findBalance db p.user p.game p.location).map BalanceRow.tokens).getD 0
            + (p.tokens : Int)⟩
      else findBalance db u g l)
  ∧ (addTokensToBalance db p).2 = { p with tokensAdded := true } :=
  ⟨addTokens_findBalance db p u g l, rfl⟩

/-- C5 fails on the code: `addTokensToBalance` — the crediting step used by
every immediate credit and by `Payment.processScheduledTokens` — sets
`tokensAdded = true` but leaves `tokensScheduledFor` untouched, so a
delayed record credited by that sweep keeps its stale schedule instead of
ending with `tokensScheduledFor = null`. -/
theorem claim_C5_counterexample :
    (addTokensToBalance []
        ⟨1, 2, "Cedar Park", 50, 10, "pi_1", "cs_1", "succeeded", none, none,
         false, some ⟨1, 11, 0⟩, none, none, none⟩).2.tokensAdded = true ∧
    (addTokensToBalance []
        ⟨1, 2, "Cedar Park", 50, 10, "pi_1", "cs_1", "succeeded", none, none,
         false, some ⟨1, 11, 0⟩, none, none, none⟩).2.tokensScheduledFor
      = some ⟨1, 11, 0⟩ := by
  exact ⟨rfl, rfl⟩

/-- C5 amended: every completing credit ends with `tokensAdded = true`, but
only the cron location sweep (`processScheduledTokensForLocation`) clears
`tokensScheduledFor` to null; `addTokensToBalance` and the per-record body
of `Payment.processScheduledTokens` leave `tokensScheduledFor` exactly as
it was. -/
theorem claim_C5_amended (db : List BalanceRow) (p : PaymentRec) :
    ((addTokensToBalance db p).2.tokensAdded = true ∧
      (addTokensToBalance db p).2.tokensScheduledFor = p.tokensScheduledFor)
  ∧ ((creditScheduledPayment db p).2.tokensAdded = true ∧
      (creditScheduledPayment db p).2.tokensScheduledFor = p.tokensScheduledFor)
  ∧ ((cronCreditPayment db p).2.tokensAdded = true ∧
      (cronCreditPayment db p).2.tokensScheduledFor = none) :=
  ⟨⟨rfl, rfl⟩, ⟨rfl, rfl⟩, ⟨rfl, rfl⟩⟩

end Hccc

namespace Hccc

/-! ## C1: idempotent crediting and the check-then-act guard -/

theorem deliverSucceeded_of_added {tr : TimeRestrictionResult} {st : Store}
    (h : st.payment.tokensAdded = true) : deliverSucceeded tr st = st := by
  unfold deliverSucceeded processSuccess
  rw [h]
  simp

theorem deliverSucceededN_of_added {tr : TimeRestrictionResult} (n : Nat)
    {st : Store} (h : st.payment.tokensAdded = true) :
    deliverSucceededN tr n st = st := by
  induction n with
  | zero => rfl
  | succ m ih =>
      rw [deliverSucceededN, deliverSucceeded_of_added h]
      exact ih

theorem deliverSucceeded_credits {tr : TimeRestrictionResult} {st : Store}
    (h0 : st.payment.tokensAdded = false) (hd : tr.shouldDelay = false) :
    deliverSucceeded tr st =
      ⟨(addTokensToBalance st.balances st.payment).1,
       { st.payment with tokensAdded := true }⟩ := by
  unfold deliverSucceeded processSuccess
  rw [h0, hd]
  simp [addTokens_payment]

/-- C1 amended: when each trigger's load-check-credit sequence completes
before the next one loads (sequential delivery), any number `n ≥ 1` of
`succeeded`-triggering events — repeated confirmation calls, duplicate
success webhooks, sweeps — increments the (user, game, location) balance by
exactly one `tokenQuantity` and leaves `tokensAdded = true`, for any
non-delaying time-restriction result. -/
theorem claim_C1_amended (st : Store) (tr : TimeRestrictionResult) (n : Nat)
    (h0 : st.payment.tokensAdded = false) (hd : tr.shouldDelay = false)
    (hn : 1 ≤ n) :
    (deliverSucceededN tr n st).payment =
      { st.payment with tokensAdded := true }
  ∧ findBalance (deliverSucceededN tr n st).balances
      st.payment.user st.payment.game st.payment.location =
      some ⟨st.payment.user, st.payment.game, st.payment.location,
        ((findBalance st.balances st.payment.user st.payment.game
            st.payment.location).map BalanceRow.tokens).getD 0
          + (st.payment.tokens : Int)⟩ := by
  obtain ⟨m, rfl⟩ : ∃ m, n = m + 1 := ⟨n - 1, by omega⟩
  rw [deliverSucceededN, deliverSucceeded_credits h0 hd,
    deliverSucceededN_of_added m (by rfl)]
  refine ⟨rfl, ?_⟩
  have := addTokens_findBalance st.balances st.payment
    st.payment.user st.payment.game st.payment.location
  rw [if_pos ⟨rfl, rfl, rfl⟩] at this
  exact this

/-- Witness for C1 amended: three sequential deliveries credit 50 tokens
exactly once. -/
theorem claim_C1_witness :
    (deliverSucceededN ⟨false, none⟩ 3
        ⟨[], ⟨1, 2, "Cedar Park", 50, 10, "pi_1", "cs_1", "succeeded", none,
          none, false, none, none, none, none⟩⟩).payment =
      { user := 1, game := 2, location := "Cedar Park", tokens := 50,
        price := 10, externalRef := "pi_1", clientSecret := "cs_1",
        status := "succeeded", paymentMethod := none, receiptUrl := none,
        tokensAdded := true, tokensScheduledFor := none, failureReason := none,
        errorCode := none, timeRestrictionMeta := none }
  ∧ findBalance (deliverSucceededN ⟨false, none⟩ 3
        ⟨[], ⟨1, 2, "Cedar Park", 50, 10, "pi_1", "cs_1", "succeeded", none,
          none, false, none, none, none, none⟩⟩).balances 1 2 "Cedar Park" =
      some ⟨1, 2, "Cedar Park", 50⟩ := by
  have h := claim_C1_amended
    ⟨[], ⟨1, 2, "Cedar Park", 50, 10, "pi_1", "cs_1", "succeeded", none,
      none, false, none, none, none, none⟩⟩ ⟨false, none⟩ 3
    (by decide) (by decide) (by decide)
  exact ⟨h.1.trans (by decide), h.2.trans (by decide)⟩

/-- C1 fails as stated for racing triggers: the `tokensAdded` guard is
check-then-act on the trigger's own in-memory snapshot of the record (the
handlers load the record, `await` provider calls and saves, and only then
test `!payment.tokensAdded`), so two triggers that both load the record
before either writes both pass the guard.  Concretely: both triggers load
the record with `tokensAdded = false`; each then runs the crediting block
on its stale snapshot; the 50-token package is credited twice, leaving the
balance at 100 ≠ 50. -/
theorem claim_C1_counterexample :
    (processSuccess
        (processSuccess
          ⟨[], ⟨1, 2, "Cedar Park", 50, 10, "pi_1", "cs_1", "succeeded", none,
            none, false, none, none, none, none⟩⟩
          "succeeded"
          ⟨1, 2, "Cedar Park", 50, 10, "pi_1", "cs_1", "succeeded", none,
            none, false, none, none, none, none⟩
          ⟨false, none⟩)
        "succeeded"
        ⟨1, 2, "Cedar Park", 50, 10, "pi_1", "cs_1", "succeeded", none,
          none, false, none, none, none, none⟩
        ⟨false, none⟩).balances = [⟨1, 2, "Cedar Park", 100⟩]
  ∧ (100 : Int) ≠ (50 : Int) := by
  exact ⟨by decide, by decide⟩

end Hccc

namespace Hccc

/-! ## C2: monotonic status -/

/-- C2 fails on the code: `handlePaymentProcessing` — the
`payment_intent.processing` webhook handler — overwrites the stored status
with `'processing'` unconditionally, so a stale processing event moves a
`succeeded` record back to `processing` instead of being ignored. -/
theorem claim_C2_counterexample :
    (⟨1, 2, "Cedar Park", 50, 10, "pi_1", "cs_1", "succeeded", none, none,
      true, none, none, none, none⟩ : PaymentRec).status = "succeeded"
  ∧ (handlePaymentProcessing
      ⟨1, 2, "Cedar Park", 50, 10, "pi_1", "cs_1", "succeeded", none, none,
        true, none, none, none, none⟩).status = "processing" := by
  exact ⟨rfl, rfl⟩

/-- C2 amended: a `succeeded` record is never regressed by repeated
confirmation calls (`POST /confirm-payment` returns it unchanged) or by a
duplicate success webhook (`handlePaymentSuccess` no-ops); but the
processing webhook sets any found record's status to `processing`
unconditionally, and `POST /check-status` likewise overwrites a `succeeded`
record whenever the provider reports a status that maps differently —
backward updates are applied, not ignored, on those two paths. -/
theorem claim_C2_amended (p : PaymentRec) (intent : StripeIntent)
    (h : p.status = "succeeded") :
    confirmPaymentUpdate p intent = p
  ∧ handlePaymentSuccessStatus p intent = p
  ∧ (handlePaymentProcessing p).status = "processing"
  ∧ (mapStripeStatusToDbStatus intent.status = "processing" →
      (checkStatusUpdate p intent).status = "processing") := by
  refine ⟨?_, ?_, rfl, ?_⟩
  · rw [confirmPaymentUpdate, if_pos h]
  · rw [handlePaymentSuccessStatus, if_pos h]
  · intro hm
    rw [checkStatusUpdate]
    rw [hm, h]
    simp

/-- Witness for C2 amended: a concrete succeeded record and a stale
`processing` provider snapshot. -/
theorem claim_C2_witness :
    confirmPaymentUpdate
      ⟨1, 2, "Cedar Park", 50, 10, "pi_1", "cs_1", "succeeded", none, none,
        true, none, none, none, none⟩
      ⟨"processing", none, "card", none⟩ =
      ⟨1, 2, "Cedar Park", 50, 10, "pi_1", "cs_1", "succeeded", none, none,
        true, none, none, none, none⟩
  ∧ (checkStatusUpdate
      ⟨1, 2, "Cedar Park", 50, 10, "pi_1", "cs_1", "succeeded", none, none,
        true, none, none, none, none⟩
      ⟨"processing", none, "card", none⟩).status = "processing" := by
  have h := claim_C2_amended
    ⟨1, 2, "Cedar Park", 50, 10, "pi_1", "cs_1", "succeeded", none, none,
      true, none, none, none, none⟩
    ⟨"processing", none, "card", none⟩ (by decide)
  exact ⟨h.1, h.2.2.2 (by decide)⟩

/-! ## C4: the scheduled-release sweeps -/

/-- C4 evaluated at its failing input.  A Cedar-Park record succeeded at
03:30 of day 0 carries `tokensScheduledFor` = day 1, 11:00.  When the cron
location sweep fires later on day 0 (17:00), its query
`{status: 'succeeded', location, tokensAdded: false}` matches the record —
it has no `tokensScheduledFor <= now` condition — and the sweep credits the
50 tokens a day before the recorded release time, while the release time is
still strictly in the future; `Payment.processScheduledTokens` run at the
same instant correctly skips the record. -/
theorem claim_C4_code_bug :
    (processScheduledTokensForLocation "Cedar Park" []
        [⟨1, 2, "Cedar Park", 50, 10, "pi_1", "cs_1", "succeeded", none, none,
          false, some ⟨1, 11, 0⟩, none, none, none⟩]).1 =
      [⟨1, 2, "Cedar Park", 50⟩]
  ∧ LocalTime.leB ⟨1, 11, 0⟩ ⟨0, 17, 0⟩ = false
  ∧ (processScheduledTokens ⟨0, 17, 0⟩ []
        [⟨1, 2, "Cedar Park", 50, 10, "pi_1", "cs_1", "succeeded", none, none,
          false, some ⟨1, 11, 0⟩, none, none, none⟩]).1 = [] := by
  exact ⟨by decide, by decide, by decide⟩

end Hccc

namespace Hccc

/-! ## C6: duplicate-intent suppression -/

/-- C6 fails on the code for the PayPal flow: `POST /create-order` answers a
second purchase-initiation call with the existing recent record's
`paypalOrderId` unconditionally — the Gateway is never asked whether the
order is still valid, so even when the order is expired or voided at PayPal
the stale reference is returned, nothing is marked `expired` and no fresh
record is created, contrary to the claim's invalid-intent branch. -/
theorem claim_C6_counterexample :
    paypalCreateOrderDedup
      (some ⟨1, 2, "Cedar Park", 50, 10, "ORDER-OLD", "", "CREATED", none,
        none, false, none, none, none, none⟩) "ORDER-NEW" =
      ⟨"ORDER-OLD", false, false⟩ := by
  exact rfl

/-- C6 amended: on the Stripe flow the claim holds with "still valid"
meaning Stripe reports `requires_payment_method` — then the stored client
secret of the existing record is returned and nothing new is created, while
any other reported status, or a retrieval failure, marks the stale record
`expired` and creates a fresh intent and record.  On the PayPal flow the
existing recent order's id is returned unconditionally, without consulting
the Gateway and without any expiry marking. -/
theorem claim_C6_amended :
    (∀ (ep : PaymentRec) (freshRef : String),
      stripeCreateIntentDedup (some ep) (.ok "requires_payment_method") freshRef =
        ⟨ep.clientSecret, false, false⟩)
  ∧ (∀ (ep : PaymentRec) (s freshRef : String), s ≠ "requires_payment_method" →
      stripeCreateIntentDedup (some ep) (.ok s) freshRef = ⟨freshRef, true, true⟩)
  ∧ (∀ (ep : PaymentRec) (freshRef : String),
      stripeCreateIntentDedup (some ep) .err freshRef = ⟨freshRef, true, true⟩)
  ∧ (∀ (ep : PaymentRec) (freshRef : String),
      paypalCreateOrderDedup (some ep) freshRef = ⟨ep.externalRef, false, false⟩) := by
  refine ⟨fun ep freshRef => ?_, fun ep s freshRef hs => ?_,
    fun ep freshRef => rfl, fun ep freshRef => rfl⟩
  · rw [stripeCreateIntentDedup]
    simp
  · rw [stripeCreateIntentDedup]
    simp [hs]

/-- Witness for C6 amended: Stripe reports `canceled` for the stale intent,
so the record is marked expired and a fresh reference is issued. -/
theorem claim_C6_witness :
    stripeCreateIntentDedup
      (some ⟨1, 2, "Cedar Park", 50, 10, "pi_old", "cs_old", "pending", none,
        none, false, none, none, none, none⟩)
      (.ok "canceled") "cs_new" = ⟨"cs_new", true, true⟩ :=
  claim_C6_amended.2.1
    ⟨1, 2, "Cedar Park", 50, 10, "pi_old", "cs_old", "pending", none,
      none, false, none, none, none, none⟩
    "canceled" "cs_new" (by decide)

/-! ## C7: only normalized statuses are persisted -/

/-- C7 fails on the code: the PayPal router persists provider-native
statuses.  Its schema declares `status` with no enum, so
`payment.status = capture.result.status` in `POST /capture-order` stores
the raw PayPal string verbatim; `COMPLETED` is not one of the seven
normalized values.  (The PayPal router's own queries —
`$in ['CREATED','SAVED','APPROVED','PAYER_ACTION_REQUIRED']`,
`status: 'COMPLETED'` — confirm these raw values live in the field.) -/
theorem claim_C7_counterexample :
    (captureOrderUpdate
        ⟨1, 2, "Cedar Park", 50, 10, "ord_1", "", "CREATED", none, none,
          false, none, none, none, none⟩ "COMPLETED").status = "COMPLETED"
  ∧ "COMPLETED" ∉ normalizedStatuses := by
  exact ⟨by decide, by decide⟩

/-- C7 amended: statuses persisted through the Stripe `Payment` schema are
confined to its enum `pending`/`processing`/`succeeded`/`failed`/
`canceled`/`expired` (itself differing from the spec's seven values:
`pending` in place of `created`, and no `refunded`): the Stripe router's
mapping table only produces enum values, and the fix-failed-payments
sweep's attempt to store a raw Stripe status is rejected by schema
validation on `save()` — the stored record stays unchanged — unless the
raw status coincides with an enum value, so that sweep never persists a
non-enum status.  The PayPal router, whose schema has no status enum,
persists raw PayPal statuses verbatim. -/
theorem claim_C7_amended :
    (∀ s : String, mapStripeStatusToDbStatus s ∈ schemaStatuses)
  ∧ (∀ (p : PaymentRec) (intent : StripeIntent),
      intent.status ∉ schemaStatuses → fixFailedPaymentsUpdate p intent = p)
  ∧ (∀ (p : PaymentRec) (intent : StripeIntent),
      (fixFailedPaymentsUpdate p intent).status = p.status ∨
      (fixFailedPaymentsUpdate p intent).status ∈ schemaStatuses)
  ∧ (∀ (p : PaymentRec) (s : String), (captureOrderUpdate p s).status = s) := by
  refine ⟨fun s => ?_, fun p intent h => ?_, fun p intent => ?_, fun p s => rfl⟩
  · rw [mapStripeStatusToDbStatus]
    repeat' split
    all_goals decide
  · rw [fixFailedPaymentsUpdate]
    by_cases hne : p.status ≠ intent.status
    · rw [if_pos hne, if_neg h]
    · rw [if_neg hne]
  · rw [fixFailedPaymentsUpdate]
    by_cases hne : p.status ≠ intent.status
    · by_cases hen : intent.status ∈ schemaStatuses
      · rw [if_pos hne, if_pos hen]
        exact Or.inr hen
      · rw [if_pos hne, if_neg hen]
        exact Or.inl rfl
    · rw [if_neg hne]
      exact Or.inl rfl

/-- Witness for C7 amended: the fix sweep's attempt to store the raw
status `requires_payment_method` over a stored `processing` fails schema
validation and persists nothing — the record is unchanged. -/
theorem claim_C7_witness :
    fixFailedPaymentsUpdate
        ⟨1, 2, "Cedar Park", 50, 10, "pi_1", "cs_1", "processing", none, none,
          false, none, none, none, none⟩
        ⟨"requires_payment_method", none, "card", none⟩ =
      ⟨1, 2, "Cedar Park", 50, 10, "pi_1", "cs_1", "processing", none, none,
        false, none, none, none, none⟩ :=
  claim_C7_amended.2.1
    ⟨1, 2, "Cedar Park", 50, 10, "pi_1", "cs_1", "processing", none, none,
      false, none, none, none, none⟩
    ⟨"requires_payment_method", none, "card", none⟩ (by decide)

end Hccc

namespace Hccc

/-! ## C8: mapping fallbacks are never terminal -/

/-- C8: every provider status not explicitly listed in a mapping table falls
back to a non-terminal value — `'pending'` for the Stripe table
(`mapStripeStatusToDbStatus`) and the PayPal table (`getDisplayStatus`),
`'incomplete'` for `getPreciseDisplayStatus` (whose explicit cases are the
`requires_*` pattern and the statuses in `preciseListedStatuses`) — and
neither `'pending'` nor `'incomplete'` is among `succeeded`, `failed`,
`canceled`, `expired`, `refunded`. -/
theorem claim_C8_fallbacks :
    (∀ s : String, s ∉ stripeListedStatuses →
      mapStripeStatusToDbStatus s = "pending")
  ∧ (∀ s : String, s ∉ paypalListedStatuses →
      getDisplayStatusPaypal s = "pending")
  ∧ (∀ (s : String) (e : Option StripeError), s ∉ preciseListedStatuses →
      startsWithRequires s = false →
      getPreciseDisplayStatus s e = "incomplete")
  ∧ ("pending" ∉ terminalStatuses ∧ "incomplete" ∉ terminalStatuses) := by
  refine ⟨fun s hs => ?_, fun s hs => ?_, fun s e hs hr => ?_,
    by decide, by decide⟩
  · simp only [stripeListedStatuses, List.mem_cons, List.not_mem_nil,
      or_false] at hs
    push_neg at hs
    obtain ⟨h1, h2, h3, h4, h5, h6, h7, h8⟩ := hs
    simp [mapStripeStatusToDbStatus, h1, h2, h3, h4, h5, h6, h7, h8]
  · simp only [paypalListedStatuses, List.mem_cons, List.not_mem_nil,
      or_false] at hs
    push_neg at hs
    obtain ⟨h1, h2, h3, h4, h5, h6⟩ := hs
    simp [getDisplayStatusPaypal, h1, h2, h3, h4, h5, h6]
  · simp only [preciseListedStatuses, List.mem_cons, List.not_mem_nil,
      or_false] at hs
    push_neg at hs
    obtain ⟨h1, h2, h3, h4, h5, h6, h7⟩ := hs
    simp [getPreciseDisplayStatus, h1, h2, h3, h4, h5, h6, h7, hr]

/-- Witness for C8: the unknown provider status `mystery_status` falls back
to `pending` / `incomplete` in all three tables. -/
theorem claim_C8_witness :
    mapStripeStatusToDbStatus "mystery_status" = "pending"
  ∧ getDisplayStatusPaypal "mystery_status" = "pending"
  ∧ getPreciseDisplayStatus "mystery_status" none = "incomplete" :=
  ⟨claim_C8_fallbacks.1 "mystery_status" (by decide),
   claim_C8_fallbacks.2.1 "mystery_status" (by decide),
   claim_C8_fallbacks.2.2.1 "mystery_status" none (by decide) (by decide)⟩

end Hccc

namespace Hccc

/-! ## C9: failure metadata -/

/-- C9 fails on the code: `POST /confirm-payment` marks a record `failed`
with no failure metadata at all.  A fresh (`pending`) record confirmed
while its intent still has status `requires_payment_method` and no
`last_payment_error` persists as `failed` with `failureReason` and
`errorCode` both unset (and even when a `last_payment_error` is present,
the endpoint's metadata spread is dropped by the Stripe schema's strict
mode). -/
theorem claim_C9_counterexample :
    (confirmPaymentUpdate
        ⟨1, 2, "Cedar Park", 50, 10, "pi_1", "cs_1", "pending", none, none,
          false, none, none, none, none⟩
        ⟨"requires_payment_method", none, "card", none⟩).status = "failed"
  ∧ (confirmPaymentUpdate
        ⟨1, 2, "Cedar Park", 50, 10, "pi_1", "cs_1", "pending", none, none,
          false, none, none, none, none⟩
        ⟨"requires_payment_method", none, "card", none⟩).failureReason = none
  ∧ (confirmPaymentUpdate
        ⟨1, 2, "Cedar Park", 50, 10, "pi_1", "cs_1", "pending", none, none,
          false, none, none, none, none⟩
        ⟨"requires_payment_method", none, "card", none⟩).errorCode = none := by
  exact ⟨by decide, by decide, by decide⟩

/-- C9 amended: no Stripe-path record reaching `failed` ever carries
failure metadata: the failure and failed-charge webhook handlers compute
`failureReason`/`errorCode` (with non-empty fallbacks) but write them into
`metadata`, whose Stripe-schema declaration has no such keys, so strict
mode drops them and only `status = 'failed'` persists — the record is
otherwise exactly unchanged; the confirmation endpoint likewise marks a
record `failed` leaving the failure fields untouched.  The claim's
guarantee survives only on the PayPal router, whose schema declares the
error-tracking metadata fields: its denied-capture webhook persists the
non-empty constants `'Payment was denied by PayPal'`/`'PAYMENT_DENIED'`. -/
theorem claim_C9_amended :
    (∀ (p : PaymentRec) (intent : StripeIntent),
      handlePaymentFailure p intent = { p with status := "failed" })
  ∧ (∀ (p : PaymentRec) (charge : StripeCharge),
      handleChargeFailed p charge = { p with status := "failed" })
  ∧ (∀ p : PaymentRec, p.status = "pending" →
      confirmPaymentUpdate p ⟨"requires_payment_method", none, "card", none⟩ =
        { p with status := "failed", paymentMethod := some "card",
                 receiptUrl := none })
  ∧ (∀ p : PaymentRec,
      (handlePaymentDenied p).status = "VOIDED" ∧
      (handlePaymentDenied p).failureReason = some "Payment was denied by PayPal" ∧
      (handlePaymentDenied p).errorCode = some "PAYMENT_DENIED" ∧
      ((handlePaymentDenied p).failureReason.getD "") ≠ "" ∧
      ((handlePaymentDenied p).errorCode.getD "") ≠ "") := by
  refine ⟨fun p intent => rfl, fun p charge => rfl, fun p hp => ?_,
    fun p => ⟨rfl, rfl, rfl, by simp [handlePaymentDenied],
      by simp [handlePaymentDenied]⟩⟩
  have hns : ¬ p.status = "succeeded" := by rw [hp]; decide
  have hdiff : p.status ≠ mapStripeStatusToDbStatus "requires_payment_method" := by
    rw [hp]; decide
  rw [confirmPaymentUpdate, if_neg hns]
  simp only [if_pos hdiff]
  rfl

/-- Witness for C9 amended: a concrete pending record confirmed against a
`requires_payment_method` intent persists as `failed` with no failure
metadata, while the PayPal denied-capture handler persists non-empty
failure metadata. -/
theorem claim_C9_witness :
    confirmPaymentUpdate
        ⟨1, 2, "Cedar Park", 50, 10, "pi_1", "cs_1", "pending", none, none,
          false, none, none, none, none⟩
        ⟨"requires_payment_method", none, "card", none⟩ =
      ⟨1, 2, "Cedar Park", 50, 10, "pi_1", "cs_1", "failed", some "card", none,
        false, none, none, none, none⟩
  ∧ (handlePaymentDenied
        ⟨1, 2, "Cedar Park", 50, 10, "ord_1", "", "APPROVED", none, none,
          false, none, none, none, none⟩).failureReason
      = some "Payment was denied by PayPal" :=
  ⟨(claim_C9_amended.2.2.1
      ⟨1, 2, "Cedar Park", 50, 10, "pi_1", "cs_1", "pending", none, none,
        false, none, none, none, none⟩ (by decide)).trans (by decide),
   (claim_C9_amended.2.2.2
      ⟨1, 2, "Cedar Park", 50, 10, "ord_1", "", "APPROVED", none, none,
        false, none, none, none, none⟩).2.1⟩

end Hccc
